import Mathlib

/-!
Verification of `pptx2img.py` (function `topng`): a shallow embedding of its
control flow and arithmetic, with theorems about slide-range clamping,
target-resolution computation, resource cleanup and error propagation.

Modelling conventions:
* COM floats (slide width/height, scale) are modelled as `ℚ`;
  Python `int()` truncation toward zero is `pyInt`.
* The `range` keyword argument is a Python value: `None`, a list of ints,
  or a tuple of ints (`PyRange`).
* External effects (file existence, `os.makedirs`, COM dispatch, opening the
  presentation, `GetSystemMetrics`) are oracles in an `Env`; each `Option` /
  `Bool` encodes whether the corresponding call succeeds.
* The observable behaviour of one call is a `RunResult` trace.
-/

namespace Pptx2img

/-- `PageSetup.SlideWidth` / `SlideHeight` of the presentation, in points. -/
structure PageSetup where
  slideWidth : ℚ
  slideHeight : ℚ
deriving DecidableEq

/-- The Python value passed as the `range` keyword argument of `topng`:
`None` (the default), a list of integers, or a tuple of integers. -/
inductive PyRange where
  | noneV : PyRange
  | list (xs : List ℤ) : PyRange
  | tuple (xs : List ℤ) : PyRange
deriving DecidableEq

/-- Python truthiness of the `range` argument (`if range and ...`):
`None` is falsy, a list or tuple is truthy iff non-empty. -/
def rangeTruthy : PyRange → Bool
  | .noneV => false
  | .list xs => !xs.isEmpty
  | .tuple xs => !xs.isEmpty

/-- `isinstance(range, list)`. -/
def isinstanceList : PyRange → Bool
  | .list _ => true
  | _ => false

/-- `len(range)` (only reached when the argument is truthy, hence a
non-empty list or tuple; the value for `None` is irrelevant). -/
def rangeLen : PyRange → ℕ
  | .noneV => 0
  | .list xs => xs.length
  | .tuple xs => xs.length

/-- Subscript `range[i]` (only reached on a two-element list). -/
def rangeGet (r : PyRange) (i : ℕ) : ℤ :=
  match r with
  | .noneV => 0
  | .list xs => xs.getD i 0
  | .tuple xs => xs.getD i 0

/-- Step 4 of `topng` ("Determine Slide Range"): `start_slide = 1`,
`end_slide = total_slides`, and when
`range and isinstance(range, list) and len(range) == 2` holds,
`start_slide = max(1, range[0])` and `end_slide = min(total_slides, range[1])`. -/
def effectiveRange (totalSlides : ℤ) (r : PyRange) : ℤ × ℤ :=
  if rangeTruthy r && isinstanceList r && (rangeLen r == 2) then
    (max 1 (rangeGet r 0), min totalSlides (rangeGet r 1))
  else
    (1, totalSlides)

/-- Python `int()` applied to a float: truncation toward zero. -/
def pyInt (q : ℚ) : ℤ :=
  if 0 ≤ q then ⌊q⌋ else ⌈q⌉

/-- Python truthiness of the `scale` argument (`if not scale`):
`None` and `0` are falsy, any other number is truthy. -/
def scaleTruthy : Option ℚ → Bool
  | Option.none => false
  | Option.some v => v != 0

/-- Step 5 of `topng` ("Calculate Target Resolution").
`metrics` is `some (screen_w, screen_h)` when the `GetSystemMetrics` calls
succeed and `none` when the `ctypes` block raises (fallback 2x branch).
A zero slide height makes `slide_width / slide_height` raise
`ZeroDivisionError` inside the same `try`, which also lands in the
fallback branch. -/
def resolveTarget (ps : PageSetup) (scale : Option ℚ)
    (metrics : Option (ℤ × ℤ)) : ℤ × ℤ :=
  if scaleTruthy scale = false then
    match metrics with
    | Option.none =>
        (pyInt (ps.slideWidth * 2), pyInt (ps.slideHeight * 2))
    | Option.some (screenW, screenH) =>
        let screenLong : ℤ := max screenW screenH
        if ps.slideHeight = 0 then
          (pyInt (ps.slideWidth * 2), pyInt (ps.slideHeight * 2))
        else
          let slideAspect : ℚ := ps.slideWidth / ps.slideHeight
          if 1 ≤ slideAspect then
            (screenLong, pyInt ((screenLong : ℚ) / slideAspect))
          else
            (pyInt ((screenLong : ℚ) * slideAspect), screenLong)
  else
    let s : ℚ := (scale.getD 0)
    (pyInt (ps.slideWidth * s), pyInt (ps.slideHeight * s))

/-- The loop header `for i in range(start_slide, end_slide + 1)` calls the
LOCAL variable `range` — the keyword argument, which shadows the Python
builtin of the same name. `None`, a list and a tuple are all non-callable,
so the call raises `TypeError` (`none` here); it never yields indices. -/
def callRange : PyRange → ℤ → ℤ → Option (List ℤ)
  | .noneV, _, _ => Option.none
  | .list _, _, _ => Option.none
  | .tuple _, _, _ => Option.none

/-- How one call to `topng` terminates: a normal `return`, or an uncaught
exception propagating to the caller. -/
inductive Outcome where
  | returned : Outcome
  | exceptionRaised : Outcome
deriving DecidableEq

/-- External-world oracles for one call to `topng`. -/
structure Env where
  /-- `os.path.exists(pptx_path)` -/
  fileExists : Bool
  /-- `os.path.exists(output_path)` -/
  outputDirExists : Bool
  /-- whether `os.makedirs(output_path)` succeeds -/
  makedirsOk : Bool
  /-- whether `win32com.client.Dispatch("PowerPoint.Application")` succeeds -/
  dispatchOk : Bool
  /-- whether `powerpoint.Presentations.Open(...)` succeeds -/
  openOk : Bool
  /-- `presentation.Slides.Count` -/
  totalSlides : ℤ
  /-- `presentation.PageSetup` -/
  pageSetup : PageSetup
  /-- `GetSystemMetrics(0)` and `GetSystemMetrics(1)`, when `ctypes` works -/
  metrics : Option (ℤ × ℤ)
deriving DecidableEq

/-- Observable trace of one call to `topng`. -/
structure RunResult where
  outcome : Outcome
  /-- the "Error: File ... not found." message was printed -/
  printedNotFound : Bool
  /-- `os.makedirs(output_path)` created the output directory -/
  dirCreated : Bool
  /-- `win32com.client.Dispatch` was called -/
  dispatchAttempted : Bool
  /-- `Presentations.Open` succeeded (state `opened` was entered) -/
  opened : Bool
  /-- `presentation.Close()` was called in the `finally` block -/
  closed : Bool
  /-- the `(start_slide, end_slide)` actually computed, when reached -/
  slideRange : Option (ℤ × ℤ)
  /-- the `(target_w, target_h)` actually computed, when reached -/
  targetSize : Option (ℤ × ℤ)
  /-- names of the PNG files written, in order -/
  exported : List String
  /-- an error message ("Error: Could not initialize ..." or
  "An error occurred during conversion: ...") was printed -/
  printedError : Bool
deriving DecidableEq

/-- Shallow embedding of `topng(pptx, output_dir, range, scale)`.

Control flow of the source, in order:
1. path handling: missing input file → print "not found", `return`;
2. missing output directory → `os.makedirs` (NOT inside any `try`:
   a failure there propagates to the caller);
3. `Dispatch` failure → print error, `return`;
4. `try:` open the presentation (failure → `except` prints, `finally`
   sees `presentation = None`, no close);
5. on success: compute slide range and target resolution, then run the
   export loop — whose header calls the shadowed `range` argument, raising
   `TypeError`, caught by the same `except`; `finally` closes the handle. -/
def topng (env : Env) (range : PyRange) (scale : Option ℚ) : RunResult :=
  if env.fileExists = false then
    { outcome := Outcome.returned, printedNotFound := true,
      dirCreated := false, dispatchAttempted := false,
      opened := false, closed := false,
      slideRange := Option.none, targetSize := Option.none,
      exported := [], printedError := false }
  else if env.outputDirExists = false ∧ env.makedirsOk = false then
    { outcome := Outcome.exceptionRaised, printedNotFound := false,
      dirCreated := false, dispatchAttempted := false,
      opened := false, closed := false,
      slideRange := Option.none, targetSize := Option.none,
      exported := [], printedError := false }
  else
    let dirCreated := !env.outputDirExists
    if env.dispatchOk = false then
      { outcome := Outcome.returned, printedNotFound := false,
        dirCreated := dirCreated, dispatchAttempted := true,
        opened := false, closed := false,
        slideRange := Option.none, targetSize := Option.none,
        exported := [], printedError := true }
    else if env.openOk = false then
      { outcome := Outcome.returned, printedNotFound := false,
        dirCreated := dirCreated, dispatchAttempted := true,
        opened := false, closed := false,
        slideRange := Option.none, targetSize := Option.none,
        exported := [], printedError := true }
    else
      let se := effectiveRange env.totalSlides range
      let tgt := resolveTarget env.pageSetup scale env.metrics
      match callRange range se.1 (se.2 + 1) with
      | Option.none =>
          { outcome := Outcome.returned, printedNotFound := false,
            dirCreated := dirCreated, dispatchAttempted := true,
            opened := true, closed := true,
            slideRange := Option.some se, targetSize := Option.some tgt,
            exported := [], printedError := true }
      | Option.some idxs =>
          { outcome := Outcome.returned, printedNotFound := false,
            dirCreated := dirCreated, dispatchAttempted := true,
            opened := true, closed := true,
            slideRange := Option.some se, targetSize := Option.some tgt,
            exported := idxs.map (fun i => "Slide_" ++ toString i ++ ".png"),
            printedError := false }

/-- Calling the (shadowed) `range` value always raises `TypeError`. -/
theorem callRange_eq_none (r : PyRange) (a b : ℤ) :
    callRange r a b = Option.none := by
  cases r <;> rfl

/-- `pyInt` agrees with `Int.floor` on non-negative rationals. -/
theorem pyInt_of_nonneg (q : ℚ) (h : 0 ≤ q) : pyInt q = ⌊q⌋ := by
  simp [pyInt, h]

/-- Claim C6: on a 10-slide document with `range = [0, 999]`, the effective
range clamps to `start = 1`, `end = 10`. -/
theorem effectiveRange_clamps_zero_999 :
    effectiveRange 10 (PyRange.list [0, 999]) = (1, 10) := by
  decide

/-- Claim C5 counterexample: with a provided range `[5, 2]` on a 10-slide
document, the computed effective range is `(5, 2)`, violating
`start ≤ end`; the invariant `1 ≤ start ≤ end ≤ total_slides` fails. -/
theorem effectiveRange_invariant_cex :
    ¬ (1 ≤ (effectiveRange 10 (PyRange.list [5, 2])).1 ∧
       (effectiveRange 10 (PyRange.list [5, 2])).1 ≤
         (effectiveRange 10 (PyRange.list [5, 2])).2 ∧
       (effectiveRange 10 (PyRange.list [5, 2])).2 ≤ 10) := by
  decide

/-- Claim C5, amended: for a provided two-element list range `[a, b]`, the
derived indices always satisfy `1 ≤ start` and `end ≤ total_slides`, and the
full invariant `1 ≤ start ≤ end ≤ total_slides` holds exactly when
`max 1 a ≤ min total_slides b` (in particular for every valid range
`1 ≤ a ≤ b ≤ total_slides`). -/
theorem effectiveRange_invariant (total a b : ℤ)
    (h : max 1 a ≤ min total b) :
    1 ≤ (effectiveRange total (PyRange.list [a, b])).1 ∧
    (effectiveRange total (PyRange.list [a, b])).1 ≤
      (effectiveRange total (PyRange.list [a, b])).2 ∧
    (effectiveRange total (PyRange.list [a, b])).2 ≤ total := by
  have hsel : effectiveRange total (PyRange.list [a, b]) = (max 1 a, min total b) := by
    simp [effectiveRange, rangeTruthy, isinstanceList, rangeLen, rangeGet]
  rw [hsel]
  exact ⟨le_max_left 1 a, h, min_le_left total b⟩

/-- Witness for C5's amended theorem at `total = 10`, `range = [2, 5]`. -/
theorem effectiveRange_invariant_witness :
    max 1 2 ≤ min (10 : ℤ) 5 ∧
    (1 ≤ (effectiveRange 10 (PyRange.list [2, 5])).1 ∧
     (effectiveRange 10 (PyRange.list [2, 5])).1 ≤
       (effectiveRange 10 (PyRange.list [2, 5])).2 ∧
     (effectiveRange 10 (PyRange.list [2, 5])).2 ≤ 10) :=
  ⟨by decide, effectiveRange_invariant 10 2 5 (by decide)⟩

/-- Claim C10: a `range` argument that is not a Python list of length
exactly two (a tuple, a list of another length, or `None`) is silently
ignored: the effective range is the full document `1 .. total_slides`. -/
theorem effectiveRange_ignores_nonlist (total : ℤ) (r : PyRange)
    (h : isinstanceList r = false ∨ rangeLen r ≠ 2) :
    effectiveRange total r = (1, total) := by
  unfold effectiveRange
  rcases h with h | h <;> cases r <;>
    simp_all [isinstanceList, rangeLen, rangeTruthy]

/-- Witness for C10 at `total = 10` and the tuple `(3, 7)`. -/
theorem effectiveRange_ignores_nonlist_witness :
    isinstanceList (PyRange.tuple [3, 7]) = false ∧
    effectiveRange 10 (PyRange.tuple [3, 7]) = (1, 10) :=
  ⟨by decide, effectiveRange_ignores_nonlist 10 (PyRange.tuple [3, 7])
    (Or.inl (by decide))⟩

/-- Claim C7: with `scale = 2` and a slide of size `W × H`, the computed
target export size is exactly `(int(2·W), int(2·H))` (truncation toward
zero when fractional), for every metrics outcome. -/
theorem resolveTarget_scale_two (ps : PageSetup) (metrics : Option (ℤ × ℤ)) :
    resolveTarget ps (Option.some 2) metrics =
      (pyInt (2 * ps.slideWidth), pyInt (2 * ps.slideHeight)) := by
  simp [resolveTarget, scaleTruthy, mul_comm]

/-- Claim C8: with no `scale`, a landscape slide (`aspect = W/H ≥ 1`,
`H > 0`) and a successful metrics query returning long edge
`L = max screen_w screen_h ≥ 0`, the target is
`(L, ⌊L / aspect⌋)`. -/
theorem resolveTarget_auto_landscape (ps : PageSetup) (screenW screenH : ℤ)
    (hh : 0 < ps.slideHeight)
    (ha : 1 ≤ ps.slideWidth / ps.slideHeight)
    (hL : 0 ≤ max screenW screenH) :
    resolveTarget ps Option.none (Option.some (screenW, screenH)) =
      (max screenW screenH,
       ⌊(max screenW screenH : ℚ) / (ps.slideWidth / ps.slideHeight)⌋) := by
  have hne : ¬ ps.slideHeight = 0 := ne_of_gt hh
  have hpos : (0 : ℚ) < ps.slideWidth / ps.slideHeight := lt_of_lt_of_le one_pos ha
  have hq : (0 : ℚ) ≤ (max screenW screenH : ℚ) / (ps.slideWidth / ps.slideHeight) := by
    apply div_nonneg _ (le_of_lt hpos)
    exact_mod_cast hL
  simp [resolveTarget, scaleTruthy, hne, ha, pyInt_of_nonneg _ hq]

/-- Witness for C8: a 16:9 slide on a 1920×1080 screen gives
target `(1920, 1080)`. -/
theorem resolveTarget_auto_landscape_witness :
    resolveTarget (PageSetup.mk 16 9) Option.none (Option.some (1920, 1080)) =
      (max 1920 1080,
       ⌊(max (1920 : ℤ) 1080 : ℚ) / ((16 : ℚ) / 9)⌋) :=
  resolveTarget_auto_landscape (PageSetup.mk 16 9) 1920 1080
    (by norm_num) (by norm_num) (by norm_num)

/-- Claim C9: `scale = 0` is falsy in Python, so the manual-scale branch is
not taken and the whole call behaves exactly as with `scale` omitted. -/
theorem topng_scale_zero_as_omitted (env : Env) (r : PyRange) :
    topng env r (Option.some 0) = topng env r Option.none := by
  have hres : resolveTarget env.pageSetup (Option.some 0) env.metrics =
      resolveTarget env.pageSetup Option.none env.metrics := by
    simp [resolveTarget, scaleTruthy]
  unfold topng
  rw [hres]

/-- Claim C1 (evaluation of the code at the failing behaviour): for every
environment, every `range` argument and every `scale`, `topng` exports NO
file at all — never the claimed `e - s + 1` (resp. `total_slides`) files —
because the loop header calls the shadowed `range` argument, which raises
`TypeError` before any slide is exported. -/
theorem topng_exports_no_file (env : Env) (r : PyRange) (s : Option ℚ) :
    (topng env r s).exported = [] := by
  unfold topng
  repeat' split
  all_goals simp_all [callRange_eq_none]

/-- Claim C2: once the presentation has been opened, the document handle is
closed on every exit path (the `finally` block runs `presentation.Close()`,
also when the export loop raises mid-way). -/
theorem topng_closes_when_opened (env : Env) (r : PyRange) (s : Option ℚ)
    (h : (topng env r s).opened = true) :
    (topng env r s).closed = true := by
  revert h
  unfold topng
  repeat' split
  all_goals simp_all [callRange_eq_none]

/-- Witness for C2: a fully successful environment reaches `opened` and the
trace records the close. -/
theorem topng_closes_when_opened_witness :
    (topng (Env.mk true true true true true 3 (PageSetup.mk 960 540)
        (Option.some (1920, 1080))) PyRange.noneV Option.none).opened = true ∧
    (topng (Env.mk true true true true true 3 (PageSetup.mk 960 540)
        (Option.some (1920, 1080))) PyRange.noneV Option.none).closed = true :=
  ⟨by decide,
   topng_closes_when_opened
     (Env.mk true true true true true 3 (PageSetup.mk 960 540)
       (Option.some (1920, 1080))) PyRange.noneV Option.none (by decide)⟩

/-- Claim C3 counterexample: when the input file exists, the output
directory does not, and `os.makedirs` fails, the exception propagates to
the caller — `topng` does NOT return normally, refuting "every failure is
caught inside `topng`". -/
theorem topng_propagates_makedirs_failure :
    ¬ (topng (Env.mk true false false true true 1 (PageSetup.mk 1 1)
        Option.none) PyRange.noneV Option.none).outcome = Outcome.returned := by
  decide

/-- Claim C3, amended: every failure from the PowerPoint dispatch onwards
(initialisation, open, metrics, export) is caught and turned into a printed
message, so whenever the output directory already exists or `os.makedirs`
succeeds, `topng` returns normally; only a directory-creation failure
propagates. -/
theorem topng_returns_normally (env : Env) (r : PyRange) (s : Option ℚ)
    (h : env.outputDirExists = true ∨ env.makedirsOk = true) :
    (topng env r s).outcome = Outcome.returned := by
  unfold topng
  repeat' split
  all_goals simp_all [callRange_eq_none]

/-- Witness for C3's amended theorem (output directory already exists). -/
theorem topng_returns_normally_witness :
    (Env.mk true true true false true 1 (PageSetup.mk 1 1)
        Option.none).outputDirExists = true ∧
    (topng (Env.mk true true true false true 1 (PageSetup.mk 1 1)
        Option.none) PyRange.noneV Option.none).outcome = Outcome.returned :=
  ⟨by decide,
   topng_returns_normally
     (Env.mk true true true false true 1 (PageSetup.mk 1 1) Option.none)
     PyRange.noneV Option.none (Or.inl (by decide))⟩

/-- Claim C4: when the document path does not reference an existing file,
`topng` prints the "not found" message and does nothing else: the output
directory is not created and the external PowerPoint application is never
dispatched. -/
theorem topng_not_found_no_action (env : Env) (r : PyRange) (s : Option ℚ)
    (h : env.fileExists = false) :
    (topng env r s).printedNotFound = true ∧
    (topng env r s).dirCreated = false ∧
    (topng env r s).dispatchAttempted = false := by
  unfold topng
  simp [h]

/-- Witness for C4: a concrete environment whose input file is missing. -/
theorem topng_not_found_no_action_witness :
    (Env.mk false false true true true 1 (PageSetup.mk 1 1)
        Option.none).fileExists = false ∧
    ((topng (Env.mk false false true true true 1 (PageSetup.mk 1 1)
        Option.none) PyRange.noneV Option.none).printedNotFound = true ∧
     (topng (Env.mk false false true true true 1 (PageSetup.mk 1 1)
        Option.none) PyRange.noneV Option.none).dirCreated = false ∧
     (topng (Env.mk false false true true true 1 (PageSetup.mk 1 1)
        Option.none) PyRange.noneV Option.none).dispatchAttempted = false) :=
  ⟨by decide,
   topng_not_found_no_action
     (Env.mk false false true true true 1 (PageSetup.mk 1 1) Option.none)
     PyRange.noneV Option.none (by decide)⟩

end Pptx2img
